import Mathlib

/-
Verification of the live-telemetry ingestion and streaming-render pipeline of
the N-body visualizer (realtime_visualizer.py, class RealtimeNBodyVisualizer).

Shallow embedding conventions:
- A raw text line is modelled by the observations the Python code makes on it:
  the result of int(line.strip()), the result of float(line.strip()), and the
  whitespace-split token list.  A token either parses as a number or does not;
  float values are idealized as rationals.
- The float square root used by np.linalg.norm is idealized as the exact real
  square root, so derived per-particle speeds live in the reals.
- File-system effects of one watcher poll cycle (os.path.exists, getmtime, the
  four getsize calls, open/readlines, time.time) are supplied by a PollEnv
  record, making the poll body a pure state transformer that also returns the
  ordered list of state-mutation and channel events it performs.
-/

namespace NBodyViz

/-- One whitespace-separated token: either parses as a float, or does not. -/
inductive Tok
  | num (q : ℚ)
  | junk (s : String)
  deriving DecidableEq

/-- Result of float(token), none when float parsing raises ValueError. -/
def Tok.floatOf : Tok → Option ℚ
  | num q => some q
  | junk _ => none

/-- One raw line of the snapshot artifact, as observed by the code: the result
of int-parsing the stripped line, of float-parsing it, and the token list of
line.split(). -/
structure Line where
  asInt : Option Int
  asFloat : Option ℚ
  toks : List Tok
  deriving DecidableEq

/-- Token i of the line, float-parsed (float(parts[i]) when defined). -/
def floatTok (l : Line) (i : Nat) : Option ℚ :=
  (l.toks.get? i).bind Tok.floatOf

/-- A decoded snapshot as built by load_snapshot: positions, masses,
n_particles = len(positions) and the simulation time from the header. -/
structure Snapshot where
  positions : List (ℚ × ℚ × ℚ)
  masses : List ℚ
  n_particles : Nat
  time : ℚ
  deriving DecidableEq

/-- Mass contributed by one particle line: the body of the per-line loop of
load_snapshot appends float(parts[1]) to masses when the line has at least 8
fields and parts[1] parses (the append happens before the position parse, so
it does not depend on parts[2..4]). -/
def lineMass (l : Line) : Option ℚ :=
  if 8 ≤ l.toks.length then floatTok l 1 else none

/-- Position contributed by one particle line: appended only when the line has
at least 8 fields and parts[1] (evaluated first), parts[2], parts[3] and
parts[4] all float-parse. -/
def linePos (l : Line) : Option (ℚ × ℚ × ℚ) :=
  if 8 ≤ l.toks.length then
    match floatTok l 1, floatTok l 2, floatTok l 3, floatTok l 4 with
    | some _, some x, some y, some z => some (x, y, z)
    | _, _, _, _ => none
  else none

/-- A particle line is well-formed in the sense of the decoder: at least 8
whitespace-separated fields and numeric mass and x, y, z columns. -/
def wellFormed (l : Line) : Bool :=
  decide (8 ≤ l.toks.length) && (floatTok l 1).isSome && (floatTok l 2).isSome
    && (floatTok l 3).isSome && (floatTok l 4).isSome

/-- Number of well-formed particle lines in a list of lines. -/
def countWF (ls : List Line) : Nat := ls.countP wellFormed

/- The pure parsing part of RealtimeNBodyVisualizer.load_snapshot, applied to
the list of lines returned by readlines: fewer than 4 lines is rejected; the
header is int(lines[1]) and float(lines[2]); fewer than 3 + n_particles lines
is rejected; the per-line loop over lines[3 .. 3+n_particles-1] accumulates
masses and positions, skipping malformed lines; the result is admitted only
when len(positions) == n_particles and positions is non-empty.  The loop is
factored into decodeBody, decodePositions and decodeMasses. -/

/-- The particle lines visited by the loop for i in range(3, 3 + n_particles);
the loop break at the end of the line list is modelled by the take. -/
def decodeBody (lines : List Line) (n : Int) : List Line :=
  (lines.drop 3).take n.toNat

/-- The positions accumulated by the loop. -/
def decodePositions (lines : List Line) (n : Int) : List (ℚ × ℚ × ℚ) :=
  (decodeBody lines n).filterMap linePos

/-- The masses accumulated by the loop. -/
def decodeMasses (lines : List Line) (n : Int) : List ℚ :=
  (decodeBody lines n).filterMap lineMass

def load_snapshot (lines : List Line) : Option Snapshot :=
  if lines.length < 4 then none
  else
    match (lines.get? 1).bind Line.asInt, (lines.get? 2).bind Line.asFloat with
    | some n, some t =>
      if (lines.length : Int) < 3 + n then none
      else
        if ((decodePositions lines n).length : Int) = n ∧ decodePositions lines n ≠ [] then
          some ⟨decodePositions lines n, decodeMasses lines n,
                (decodePositions lines n).length, t⟩
        else none
    | _, _ => none

/-- Squared Euclidean distance of two 3D points, over the rationals. -/
def sqDist (a b : ℚ × ℚ × ℚ) : ℚ :=
  (a.1 - b.1) ^ 2 + (a.2.1 - b.2.1) ^ 2 + (a.2.2 - b.2.2) ^ 2

/-- Row i of np.linalg.norm(new_pos - old_pos, axis=1): the Euclidean norm of
the difference of corresponding position rows, with float sqrt idealized as
the exact real square root. -/
noncomputable def dist3 (a b : ℚ × ℚ × ℚ) : ℝ :=
  Real.sqrt ((sqDist a b : ℚ) : ℝ)

/-- Modelling the words of the spec: the Euclidean distance between two
3-dimensional position entries, sqrt of the sum of squared component
differences.  Kept separate from dist3 (which embeds the numpy call in
monitor_files) so the two can be compared. -/
noncomputable def euclideanDistance (a b : ℚ × ℚ × ℚ) : ℝ :=
  Real.sqrt ((((a.1 - b.1) ^ 2 + (a.2.1 - b.2.1) ^ 2 + (a.2.2 - b.2.2) ^ 2 : ℚ)) : ℝ)

/-- The velocity-derivation block of monitor_files (lines 204-217): when a
previous snapshot is held and its row count matches, per-row norms of the
position difference; otherwise (mismatch, or no previous snapshot) an
all-zero vector of length n_particles. -/
noncomputable def computeVelocities (prev : Option Snapshot) (data : Snapshot) : List ℝ :=
  match prev with
  | some old =>
    if old.positions.length = data.positions.length then
      List.zipWith dist3 data.positions old.positions
    else
      List.replicate data.n_particles 0
  | none => List.replicate data.n_particles 0

/-- Per-instance mutable state, one entry of self.simulations. -/
structure SimState where
  particles : Option Snapshot
  current_snapshot : Int
  snapshots : List Snapshot
  status : String
  start_time : Option ℚ
  processing_times : List ℚ
  velocities : List ℝ
  current_time : ℚ
  t_end : ℚ
  last_mtime : ℚ
  rot_angle : ℚ

/-- The file-system observations made during one poll cycle of monitor_files
for one instance: existence of data.con, its mtime, the two sizes read by the
stability check in monitor_files (size1, size2), the two sizes read by the
stability check inside load_snapshot (size3, size4), whether the open/retry
loop eventually succeeds, the lines read, the measured decode wall-clock
duration, the current time, and the contents of status.txt when it exists. -/
structure PollEnv where
  conExists : Bool
  mtime : ℚ
  size1 : Int
  size2 : Int
  size3 : Int
  size4 : Int
  readable : Bool
  content : List Line
  load_time : ℚ
  now : ℚ
  statusFile : Option String

/-- load_snapshot including its internal effects: its own stability check
(two getsize calls, rejecting unequal or zero sizes), the open retry loop,
then the pure parse of the lines read. -/
def load_snapshot_file (env : PollEnv) : Option Snapshot :=
  if env.size3 ≠ env.size4 ∨ env.size4 = 0 then none
  else if env.readable then load_snapshot env.content
  else none

/-- One observable action performed by the poll cycle, in program order:
writes to the per-instance dict fields, and the queue.put call. -/
inductive Event
  | setLastMtime (m : ℚ)
  | incSnapshot (idx : Int)
  | enqueue (data : Snapshot) (vel : List ℝ) (idx : Int) (load_time : ℚ)
  | setStatus (s : String)
  | setStartTime (t : ℚ)

/-- Discrete tag of an event, used to state ordering facts decidably. -/
inductive ETag
  | marker
  | inc
  | enq
  | status
  | startT
  deriving DecidableEq

def Event.tag : Event → ETag
  | .setLastMtime _ => .marker
  | .incSnapshot _ => .inc
  | .enqueue _ _ _ _ => .enq
  | .setStatus _ => .status
  | .setStartTime _ => .startT

def Event.isEnq : Event → Bool
  | .enqueue _ _ _ _ => true
  | _ => false

/-- The channel emissions among the events of a cycle. -/
def emissions (evs : List Event) : List Event := evs.filter Event.isEnq

/-- Value stored into start_time by lines 225-226: set to the current time
only when still unset. -/
def startTimeVal (sim : SimState) (env : PollEnv) : ℚ :=
  match sim.start_time with
  | none => env.now
  | some t => t

/-- State after the success branch of the data.con block (lines 219-226). -/
noncomputable def succState (sim : SimState) (env : PollEnv) : SimState :=
  { sim with
    last_mtime := env.mtime
    current_snapshot := sim.current_snapshot + 1
    status := "running"
    start_time := some (startTimeVal sim env) }

/-- Events of the success branch, in program order: the last_mtime write
(line 220), the snapshot-counter increment (line 221), the queue.put
(line 223), the status write (line 224), and the start_time write
(lines 225-226) when start_time was unset. -/
noncomputable def succEvents (sim : SimState) (env : PollEnv) (data : Snapshot) : List Event :=
  [Event.setLastMtime env.mtime,
   Event.incSnapshot (sim.current_snapshot + 1),
   Event.enqueue data (computeVelocities sim.particles data) (sim.current_snapshot + 1) env.load_time,
   Event.setStatus "running"] ++
  (match sim.start_time with
   | none => [Event.setStartTime env.now]
   | some _ => [])

/-- The data.con block of one poll cycle of monitor_files (lines 187-228):
gated on file existence, on the modification marker, and on the stability
check; on decoder success it performs the success branch, otherwise it leaves
the state untouched. -/
noncomputable def pollData (env : PollEnv) (sim : SimState) : SimState × List Event :=
  if env.conExists then
    if sim.last_mtime < env.mtime then
      if env.size1 = env.size2 ∧ 0 < env.size2 then
        match load_snapshot_file env with
        | some data => (succState sim env, succEvents sim env data)
        | none => (sim, [])
      else (sim, [])
    else (sim, [])
  else (sim, [])

/-- The status.txt block of one poll cycle (lines 231-234): when the marker
file exists its stripped contents overwrite the status field. -/
def pollStatus (env : PollEnv) (sim : SimState) : SimState × List Event :=
  match env.statusFile with
  | some s => ({ sim with status := s }, [Event.setStatus s])
  | none => (sim, [])

/-- One full poll cycle of monitor_files for one instance: the data.con block
followed by the status.txt block. -/
noncomputable def pollStep (env : PollEnv) (sim : SimState) : SimState × List Event :=
  ((pollStatus env (pollData env sim).1).1,
   (pollData env sim).2 ++ (pollStatus env (pollData env sim).1).2)

/-- Trail-history capacity: deque(maxlen=self.trail_length) with
self.trail_length = 10. -/
def trail_length : Nat := 10

/-- Append to a deque with maxlen K: when the result would exceed K entries,
entries are discarded from the left until exactly K remain. -/
def dequeAppend (K : Nat) (h : List Snapshot) (s : Snapshot) : List Snapshot :=
  if K < h.length + 1 then (h ++ [s]).drop (h.length + 1 - K) else h ++ [s]

/-- One tuple drained from the fan-in queue: (data, velocities carried inside
the data dict, snapshot index, decode duration). -/
structure QItem where
  data : Snapshot
  velocities : List ℝ
  idx : Int
  load_time : ℚ

/-- Folding one drained queue item into the instance state, as done by the
drain loop of update_visualization (lines 313-324). -/
def consumeItem (sim : SimState) (it : QItem) : SimState :=
  { sim with
    particles := some it.data
    current_snapshot := it.idx
    snapshots := dequeAppend trail_length sim.snapshots it.data
    processing_times := sim.processing_times ++ [it.load_time]
    velocities := it.velocities
    current_time := it.data.time }

/-- Python list[-n:]. -/
def lastN (n : Nat) (l : List ℚ) : List ℚ := l.drop (l.length - n)

/-- np.mean over a rational sample list. -/
def mean (l : List ℚ) : ℚ := l.sum / (l.length : ℚ)

/-- The FPS metric of lines 436-441: reciprocal of the mean of the last 10
decode durations, 0 when the mean is not positive or no sample exists. -/
def fpsOf (times : List ℚ) : ℚ :=
  if times ≠ [] then
    if 0 < mean (lastN 10 times) then 1 / mean (lastN 10 times) else 0
  else 0

/-- The speedup metric of lines 436-442: for an instance with samples, the
reference (P=1) most recent decode duration divided by the mean of this
instance's last 10 durations when P is greater than 1 and the reference has
samples, else the processor count P; for an instance with no samples, 1. -/
def speedupOf (P : Nat) (refTimes times : List ℚ) : ℚ :=
  if times ≠ [] then
    if 1 < P ∧ refTimes ≠ [] then refTimes.getLastD 0 / mean (lastN 10 times)
    else (P : ℚ)
  else 1

/-- Reading t_end at startup (lines 102-112): default 100.0; when the cfg
artifact exists and is readable, its whitespace-split tokens are taken and,
when there are at least two, t_end is float(tokens[1]); any failure leaves
the default in place. -/
def readTEnd (cfg : Option (List Tok)) : ℚ :=
  match cfg with
  | none => 100
  | some tokens =>
    if 2 ≤ tokens.length then
      match (tokens.get? 1).bind Tok.floatOf with
      | some v => v
      | none => 100
    else 100

/-- The per-instance HUD data computed by the render tick. -/
structure Scene where
  progress : ℚ
  fps : ℚ
  speedup : ℚ
  hud_snapshot : Int
  deriving DecidableEq

/-- The per-instance display step of update_visualization (lines 328-476):
the rotation phase always advances by the rotation speed; when a snapshot is
held, a scene is produced whose progress is
min(max(current_time / t_end, 0.0), 1.0) (line 409) and whose metrics come
from the processing-time window; when no snapshot is held the waiting text is
shown and no scene is produced. -/
def renderInstance (speed : ℚ) (P : Nat) (refTimes : List ℚ) (sim : SimState) :
    SimState × Option Scene :=
  let sim2 := { sim with rot_angle := sim.rot_angle + speed }
  match sim2.particles with
  | some _ =>
    (sim2, some
      { progress := min (max (sim2.current_time / sim2.t_end) 0) 1
        fps := fpsOf sim2.processing_times
        speedup := speedupOf P refTimes sim2.processing_times
        hud_snapshot := sim2.current_snapshot })
  | none => (sim2, none)

/-! Concrete artifacts and states used by witnesses and counterexamples. -/

/-- A line none of whose observations parse. -/
def lineBlank : Line := ⟨none, none, []⟩

/-- A header line holding a single integer. -/
def lineInt (n : Int) : Line := ⟨some n, some (n : ℚ), []⟩

/-- A header line holding a single float. -/
def lineFloat (q : ℚ) : Line := ⟨none, some q, []⟩

/-- A well-formed particle line: id mass x y z vx vy vz. -/
def particleLine (m x y z : ℚ) : Line :=
  ⟨none, none,
   [Tok.num 0, Tok.num m, Tok.num x, Tok.num y, Tok.num z,
    Tok.num 0, Tok.num 0, Tok.num 0]⟩

/-- A malformed particle line (one junk field). -/
def badLine : Line := ⟨none, none, [Tok.junk "x"]⟩

/-- A complete 1-particle artifact. -/
def goodLines : List Line := [lineBlank, lineInt 1, lineFloat 5, particleLine 1 2 3 4]

/-- The snapshot decoded from goodLines. -/
def goodSnap : Snapshot := ⟨[(2, 3, 4)], [1], 1, 5⟩

/-- An artifact declaring 2 particles but holding only one well-formed line. -/
def shortLines : List Line :=
  [lineBlank, lineInt 2, lineFloat 5, particleLine 1 2 3 4, badLine]

/-- An artifact declaring 0 particles. -/
def zeroLines : List Line := [lineBlank, lineInt 0, lineFloat 0, badLine]

/-- An artifact with fewer than 4 lines. -/
def tinyLines : List Line := [lineBlank]

/-- The initial per-instance state built in the constructor. -/
def simInit : SimState :=
  { particles := none, current_snapshot := -1, snapshots := [], status := "waiting",
    start_time := none, processing_times := [], velocities := [], current_time := 0,
    t_end := 100, last_mtime := 0, rot_angle := 0 }

/-- A poll cycle in which the artifact is new, stable and decodes. -/
def envGood : PollEnv :=
  { conExists := true, mtime := 5, size1 := 100, size2 := 100, size3 := 100,
    size4 := 100, readable := true, content := goodLines, load_time := 7,
    now := 9, statusFile := none }

/-- A poll cycle whose monitor-level stability check sees two unequal sizes. -/
def envTorn : PollEnv := { envGood with size1 := 40 }

/-- A poll cycle whose decoder-level stability check sees two unequal sizes,
so the decode fails. -/
def envBadLoad : PollEnv := { envGood with size3 := 40 }

/-- Snapshots used by the velocity-estimate witness. -/
def snapA : Snapshot := ⟨[(0, 0, 0)], [1], 1, 0⟩

def snapB : Snapshot := ⟨[(3, 4, 0)], [1], 1, 1⟩

def snapC : Snapshot := ⟨[(1, 0, 0), (2, 0, 0)], [1, 1], 2, 0⟩

/-- An instance state whose trail ring is full. -/
def simFull : SimState := { simInit with snapshots := List.replicate 10 goodSnap }

/-- An instance state holding a snapshot, for the render-tick witness. -/
def simC7 : SimState := { simInit with particles := some goodSnap, current_time := 50 }

/-- A queue item used by the trail witness. -/
def itemA : QItem := ⟨goodSnap, [], 0, 1⟩

/-- The scene the render tick produces for simC7. -/
def sceneC7 : Scene :=
  { progress := min (max (simC7.current_time / simC7.t_end) 0) 1
    fps := fpsOf simC7.processing_times
    speedup := speedupOf 2 [] simC7.processing_times
    hud_snapshot := simC7.current_snapshot }

/-! Helper lemmas. -/

lemma length_filterMap_eq_countP {α β : Type} (f : α → Option β) (l : List α) :
    (l.filterMap f).length = l.countP fun a => (f a).isSome := by
  induction l with
  | nil => rfl
  | cons x xs ih =>
    rw [List.filterMap_cons, List.countP_cons]
    cases h : f x <;> simp [h, ih]

lemma linePos_isSome_eq (l : Line) : (linePos l).isSome = wellFormed l := by
  unfold linePos wellFormed
  by_cases h : 8 ≤ l.toks.length
  · rcases h1 : floatTok l 1 with _ | q1 <;> rcases h2 : floatTok l 2 with _ | q2 <;>
      rcases h3 : floatTok l 3 with _ | q3 <;> rcases h4 : floatTok l 4 with _ | q4 <;>
        simp [h, h1, h2, h3, h4]
  · simp [h]

lemma lineMass_isSome_of_wellFormed (l : Line) (h : wellFormed l = true) :
    (lineMass l).isSome := by
  unfold wellFormed at h
  unfold lineMass
  simp only [Bool.and_eq_true, decide_eq_true_eq] at h
  rw [if_pos h.1.1.1.1]
  exact h.1.1.1.2

lemma decodePositions_length (lines : List Line) (n : Int) :
    (decodePositions lines n).length = countWF (decodeBody lines n) := by
  unfold decodePositions countWF
  rw [length_filterMap_eq_countP]
  apply List.countP_congr
  intro l _
  simp [linePos_isSome_eq l]

/-- C1: load_snapshot returns a snapshot only when all of the declared
particle_count particle lines are well-formed (at least 8 fields, numeric
mass and x, y, z), in which case len(positions) = len(masses) =
particle_count; whenever fewer well-formed particle lines than the declared
count are available, decoding fails and no partial snapshot is returned. -/
theorem C1_decoder_exact_count (lines : List Line) :
    (∀ s, load_snapshot lines = some s →
      s.positions.length = s.n_particles ∧
      s.masses.length = s.n_particles ∧
      (lines.get? 1).bind Line.asInt = some (s.n_particles : Int) ∧
      countWF ((lines.drop 3).take s.n_particles) = s.n_particles) ∧
    (∀ n : Int, (lines.get? 1).bind Line.asInt = some n →
      (countWF (lines.drop 3) : Int) < n → load_snapshot lines = none) := by
  constructor
  · intro s hs
    unfold load_snapshot at hs
    split at hs
    · simp at hs
    · split at hs
      · rename_i n t hInt hFloat
        split at hs
        · simp at hs
        · split at hs
          · rename_i hlen hg
            obtain ⟨hg1, hg2⟩ := hg
            obtain rfl := (Option.some.inj hs).symm
            have hP : (decodePositions lines n).length = countWF (decodeBody lines n) :=
              decodePositions_length lines n
            have hbody : (decodeBody lines n).length ≤ n.toNat := by
              unfold decodeBody
              simp [List.length_take_le]
            have hcle : countWF (decodeBody lines n) ≤ (decodeBody lines n).length :=
              List.countP_le_length _
            have hn0 : n.toNat = (decodePositions lines n).length := by
              omega
            have hfull : countWF (decodeBody lines n) = (decodeBody lines n).length := by
              omega
            have hall : ∀ l ∈ decodeBody lines n, wellFormed l :=
              List.countP_eq_length.mp hfull
            have hM : (decodeMasses lines n).length = (decodeBody lines n).length := by
              unfold decodeMasses
              rw [length_filterMap_eq_countP]
              exact List.countP_eq_length.mpr fun l hl =>
                lineMass_isSome_of_wellFormed l (hall l hl)
            refine ⟨rfl, ?_, ?_, ?_⟩
            · show (decodeMasses lines n).length = (decodePositions lines n).length
              omega
            · rw [hInt]
              show some n = some ((decodePositions lines n).length : Int)
              congr 1
              omega
            · show countWF ((lines.drop 3).take (decodePositions lines n).length)
                = (decodePositions lines n).length
              rw [← hn0]
              show countWF (decodeBody lines n) = n.toNat
              omega
          · simp at hs
      · simp at hs
  · intro n hn hlt
    unfold load_snapshot
    split
    · rfl
    · rw [hn]
      rcases hF : (lines.get? 2).bind Line.asFloat with _ | t
      · rfl
      · show (if (lines.length : Int) < 3 + n then none
          else
            if ((decodePositions lines n).length : Int) = n ∧ decodePositions lines n ≠ [] then
              some (⟨decodePositions lines n, decodeMasses lines n,
                    (decodePositions lines n).length, t⟩ : Snapshot)
            else none) = none
        split_ifs with h1 h2
        · rfl
        · exfalso
          have hle : countWF (decodeBody lines n) ≤ countWF (lines.drop 3) :=
            (List.take_sublist _ _).countP_le _
          have hP : (decodePositions lines n).length = countWF (decodeBody lines n) :=
            decodePositions_length lines n
          have := h2.1
          omega
        · rfl

/-- C1 witness: a complete 1-particle artifact decodes to a snapshot with
matching lengths and exactly as many well-formed lines as declared, and an
artifact declaring 2 particles with only one well-formed line decodes to
none. -/
theorem C1_decoder_exact_count_witness :
    (load_snapshot goodLines = some goodSnap ∧
     goodSnap.positions.length = goodSnap.n_particles ∧
     goodSnap.masses.length = goodSnap.n_particles ∧
     countWF ((goodLines.drop 3).take goodSnap.n_particles) = goodSnap.n_particles) ∧
    ((shortLines.get? 1).bind Line.asInt = some 2 ∧
     (countWF (shortLines.drop 3) : Int) < 2 ∧
     load_snapshot shortLines = none) := by
  refine ⟨⟨by decide, ?_⟩, by decide, by decide, ?_⟩
  · have h := (C1_decoder_exact_count goodLines).1 goodSnap (by decide)
    exact ⟨h.1, h.2.1, h.2.2.2⟩
  · exact (C1_decoder_exact_count shortLines).2 2 (by decide) (by decide)

/-- C9: an artifact whose header declares particle_count = 0 is always
rejected by the decoder (the final acceptance check requires a non-empty
position list), and content with fewer than 4 lines is rejected outright. -/
theorem C9_zero_count_rejected (lines : List Line) :
    ((lines.get? 1).bind Line.asInt = some 0 → load_snapshot lines = none) ∧
    (lines.length < 4 → load_snapshot lines = none) := by
  constructor
  · intro h0
    unfold load_snapshot
    split
    · rfl
    · rw [h0]
      rcases hF : (lines.get? 2).bind Line.asFloat with _ | t
      · rfl
      · show (if (lines.length : Int) < 3 + 0 then none
          else
            if ((decodePositions lines 0).length : Int) = 0 ∧ decodePositions lines 0 ≠ [] then
              some (⟨decodePositions lines 0, decodeMasses lines 0,
                    (decodePositions lines 0).length, t⟩ : Snapshot)
            else none) = none
        split_ifs with h1 h2
        · rfl
        · exfalso
          have h2' := h2.2
          have : decodePositions lines 0 = [] := by
            unfold decodePositions decodeBody
            simp
          exact h2' this
        · rfl
  · intro h4
    unfold load_snapshot
    rw [if_pos h4]

/-- C9 witness: a 4-line artifact declaring 0 particles decodes to none, and
a 1-line artifact decodes to none. -/
theorem C9_zero_count_rejected_witness :
    ((zeroLines.get? 1).bind Line.asInt = some 0 ∧ load_snapshot zeroLines = none) ∧
    (tinyLines.length < 4 ∧ load_snapshot tinyLines = none) :=
  ⟨⟨by decide, (C9_zero_count_rejected zeroLines).1 (by decide)⟩,
   ⟨by decide, (C9_zero_count_rejected tinyLines).2 (by decide)⟩⟩

lemma zipWith_get?_eq {α β γ : Type} (f : α → β → γ) :
    ∀ (l₁ : List α) (l₂ : List β) (i : Nat) (a : α) (b : β),
      l₁.get? i = some a → l₂.get? i = some b →
      (List.zipWith f l₁ l₂).get? i = some (f a b)
  | [], _, i, _, _, h, _ => by simp at h
  | _ :: _, [], i, _, _, _, h => by simp at h
  | x :: l₁, y :: l₂, 0, a, b, h1, h2 => by
    simp only [List.get?] at h1 h2
    obtain rfl := Option.some.inj h1
    obtain rfl := Option.some.inj h2
    rfl
  | x :: l₁, y :: l₂, (i + 1), a, b, h1, h2 => by
    simpa using zipWith_get?_eq f l₁ l₂ i a b (by simpa using h1) (by simpa using h2)

lemma dist3_eq_euclideanDistance (a b : ℚ × ℚ × ℚ) :
    dist3 a b = euclideanDistance a b := rfl

/-- C4: when the previous and the new snapshot have equal particle counts,
the derived velocity at each index equals the Euclidean distance between the
corresponding position entries; when the counts differ, the derived
velocities are an all-zero vector of length n_particles and no error is
raised. -/
theorem C4_velocity_estimate (old data : Snapshot) :
    (old.positions.length = data.positions.length →
      (computeVelocities (some old) data).length = data.positions.length ∧
      ∀ (i : Nat) (a b : ℚ × ℚ × ℚ),
        data.positions.get? i = some a → old.positions.get? i = some b →
        (computeVelocities (some old) data).get? i = some (euclideanDistance a b)) ∧
    (old.positions.length ≠ data.positions.length →
      computeVelocities (some old) data = List.replicate data.n_particles 0) := by
  constructor
  · intro h
    constructor
    · show (if old.positions.length = data.positions.length then
          List.zipWith dist3 data.positions old.positions
        else List.replicate data.n_particles 0).length = data.positions.length
      rw [if_pos h, List.length_zipWith, h, min_self]
    · intro i a b ha hb
      show (if old.positions.length = data.positions.length then
          List.zipWith dist3 data.positions old.positions
        else List.replicate data.n_particles 0).get? i = some (euclideanDistance a b)
      rw [if_pos h, ← dist3_eq_euclideanDistance]
      exact zipWith_get?_eq dist3 data.positions old.positions i a b ha hb
  · intro h
    show (if old.positions.length = data.positions.length then
        List.zipWith dist3 data.positions old.positions
      else List.replicate data.n_particles 0) = List.replicate data.n_particles 0
    rw [if_neg h]

/-- C4 witness: for two 1-particle snapshots the derived velocity at index 0
is the Euclidean distance of the two positions, and for snapshots of
different particle counts the derived velocities are all zero. -/
theorem C4_velocity_estimate_witness :
    (snapA.positions.length = snapB.positions.length ∧
     (computeVelocities (some snapA) snapB).get? 0 =
       some (euclideanDistance ((3 : ℚ), (4 : ℚ), (0 : ℚ)) ((0 : ℚ), (0 : ℚ), (0 : ℚ)))) ∧
    (snapA.positions.length ≠ snapC.positions.length ∧
     computeVelocities (some snapA) snapC = List.replicate snapC.n_particles 0) := by
  refine ⟨⟨by decide, ?_⟩, by decide, ?_⟩
  · exact ((C4_velocity_estimate snapA snapB).1 (by decide)).2 0 _ _ (by decide) (by decide)
  · exact (C4_velocity_estimate snapA snapC).2 (by decide)

lemma pollData_success (env : PollEnv) (sim : SimState) (data : Snapshot)
    (hc : env.conExists = true) (hm : sim.last_mtime < env.mtime)
    (hs : env.size1 = env.size2) (hp : 0 < env.size2)
    (hl : load_snapshot_file env = some data) :
    pollData env sim = (succState sim env, succEvents sim env data) := by
  unfold pollData
  rw [if_pos hc, if_pos hm, if_pos ⟨hs, hp⟩, hl]

lemma pollData_cases (env : PollEnv) (sim : SimState) :
    pollData env sim = (sim, []) ∨
    ∃ data, load_snapshot_file env = some data ∧ env.conExists = true ∧
      sim.last_mtime < env.mtime ∧ env.size1 = env.size2 ∧ 0 < env.size2 ∧
      pollData env sim = (succState sim env, succEvents sim env data) := by
  unfold pollData
  split_ifs with h1 h2 h3
  · rcases hl : load_snapshot_file env with _ | data
    · exact Or.inl rfl
    · exact Or.inr ⟨data, rfl, h1, h2, h3.1, h3.2, rfl⟩
  all_goals exact Or.inl rfl

lemma pollStatus_fields (env : PollEnv) (sim : SimState) :
    (pollStatus env sim).1.particles = sim.particles ∧
    (pollStatus env sim).1.snapshots = sim.snapshots ∧
    (pollStatus env sim).1.processing_times = sim.processing_times ∧
    (pollStatus env sim).1.velocities = sim.velocities ∧
    (pollStatus env sim).1.current_time = sim.current_time ∧
    (pollStatus env sim).1.rot_angle = sim.rot_angle ∧
    (pollStatus env sim).1.t_end = sim.t_end ∧
    (pollStatus env sim).1.last_mtime = sim.last_mtime := by
  unfold pollStatus
  cases env.statusFile <;> simp

lemma emissions_pollStatus (env : PollEnv) (sim : SimState) :
    emissions (pollStatus env sim).2 = [] := by
  unfold pollStatus emissions
  cases env.statusFile <;> simp [List.filter, Event.isEnq]

lemma emissions_pollStep (env : PollEnv) (sim : SimState) :
    emissions (pollStep env sim).2 = emissions (pollData env sim).2 := by
  unfold pollStep
  show emissions ((pollData env sim).2 ++ (pollStatus env (pollData env sim).1).2) = _
  unfold emissions
  rw [List.filter_append]
  have h := emissions_pollStatus env (pollData env sim).1
  unfold emissions at h
  rw [h, List.append_nil]

lemma emissions_succEvents (sim : SimState) (env : PollEnv) (data : Snapshot) :
    emissions (succEvents sim env data) =
      [Event.enqueue data (computeVelocities sim.particles data)
        (sim.current_snapshot + 1) env.load_time] := by
  unfold succEvents emissions
  cases sim.start_time <;> simp [List.filter, Event.isEnq]

/-- C2: a poll cycle in which the two sizes read by a stability check are
unequal, or the second is zero, emits nothing onto the fan-in channel; a
cycle that reaches the stability check with equal positive sizes and whose
decode succeeds emits exactly one snapshot. -/
theorem C2_stability_gates_emission (env : PollEnv) (sim : SimState) :
    ((env.size1 ≠ env.size2 ∨ env.size2 = 0) → emissions (pollStep env sim).2 = []) ∧
    ((env.size3 ≠ env.size4 ∨ env.size4 = 0) → emissions (pollStep env sim).2 = []) ∧
    (env.conExists = true → sim.last_mtime < env.mtime →
      env.size1 = env.size2 → 0 < env.size2 →
      ∀ data, load_snapshot_file env = some data →
        emissions (pollStep env sim).2 =
          [Event.enqueue data (computeVelocities sim.particles data)
            (sim.current_snapshot + 1) env.load_time]) := by
  refine ⟨?_, ?_, ?_⟩
  · intro h
    rw [emissions_pollStep]
    rcases pollData_cases env sim with hd | ⟨data, hl, hc, hm, hs, hp, hd⟩
    · rw [hd]
      rfl
    · exfalso
      rcases h with h | h
      · exact h hs
      · omega
  · intro h
    rw [emissions_pollStep]
    rcases pollData_cases env sim with hd | ⟨data, hl, hc, hm, hs, hp, hd⟩
    · rw [hd]
      rfl
    · exfalso
      have : load_snapshot_file env = none := by
        unfold load_snapshot_file
        rw [if_pos h]
      rw [this] at hl
      exact Option.noConfusion hl
  · intro hc hm hs hp data hl
    rw [emissions_pollStep, pollData_success env sim data hc hm hs hp hl]
    exact emissions_succEvents sim env data

/-- C2 witness: a cycle over a fresh, stable, decodable 1-particle artifact
emits exactly one snapshot, with all the hypotheses of the theorem holding at
this input. -/
theorem C2_stability_gates_emission_witness :
    (envGood.conExists = true ∧ simInit.last_mtime < envGood.mtime ∧
     envGood.size1 = envGood.size2 ∧ 0 < envGood.size2 ∧
     load_snapshot_file envGood = some goodSnap) ∧
    emissions (pollStep envGood simInit).2 =
      [Event.enqueue goodSnap (computeVelocities simInit.particles goodSnap)
        (simInit.current_snapshot + 1) envGood.load_time] :=
  ⟨⟨rfl, by decide, rfl, by decide, by decide⟩,
   (C2_stability_gates_emission envGood simInit).2.2 rfl (by decide) rfl (by decide)
     goodSnap (by decide)⟩

/-- C3 counterexample: the watcher task itself mutates Instance State.  On a
concrete successful poll cycle, the poll body run by the monitor thread
changes the last_mtime, status and current_snapshot fields of the per-
instance state, so the render tick is not the only writer of Instance
State. -/
theorem C3_watcher_mutates_state_cex :
    (pollStep envGood simInit).1.last_mtime ≠ simInit.last_mtime ∧
    (pollStep envGood simInit).1.status ≠ simInit.status ∧
    (pollStep envGood simInit).1.current_snapshot ≠ simInit.current_snapshot := by
  refine ⟨?_, ?_, ?_⟩
  · show (5 : ℚ) ≠ 0
    norm_num
  · show "running" ≠ "waiting"
    decide
  · show (0 : Int) ≠ -1
    decide

lemma pollStep_preserves_render_fields (env : PollEnv) (sim : SimState) :
    (pollStep env sim).1.particles = sim.particles ∧
    (pollStep env sim).1.snapshots = sim.snapshots ∧
    (pollStep env sim).1.processing_times = sim.processing_times ∧
    (pollStep env sim).1.velocities = sim.velocities ∧
    (pollStep env sim).1.current_time = sim.current_time ∧
    (pollStep env sim).1.rot_angle = sim.rot_angle ∧
    (pollStep env sim).1.t_end = sim.t_end := by
  have hstep : (pollStep env sim).1 = (pollStatus env (pollData env sim).1).1 := rfl
  rcases pollData_cases env sim with hd | ⟨data, hl, hc, hm, hs, hp, hd⟩ <;>
    rw [hstep, hd] <;>
    have h := pollStatus_fields env ((succState sim env)) <;>
    have h0 := pollStatus_fields env sim
  · exact ⟨h0.1, h0.2.1, h0.2.2.1, h0.2.2.2.1, h0.2.2.2.2.1, h0.2.2.2.2.2.1,
      h0.2.2.2.2.2.2.1⟩
  · refine ⟨?_, ?_, ?_, ?_, ?_, ?_, ?_⟩ <;>
      simp only [h.1, h.2.1, h.2.2.1, h.2.2.2.1, h.2.2.2.2.1, h.2.2.2.2.2.1,
        h.2.2.2.2.2.2.1] <;>
      rfl

/-- C3 amended: the watcher poll cycle never writes the render-consumed
fields of Instance State (particles, trail snapshots, processing times,
velocities, current time, rotation phase, t_end) — those are written only by
the render tick — but it does write the bookkeeping fields last_mtime,
current_snapshot, status and start_time. -/
theorem C3_single_writer_amended (env : PollEnv) (sim : SimState) :
    (pollStep env sim).1.particles = sim.particles ∧
    (pollStep env sim).1.snapshots = sim.snapshots ∧
    (pollStep env sim).1.processing_times = sim.processing_times ∧
    (pollStep env sim).1.velocities = sim.velocities ∧
    (pollStep env sim).1.current_time = sim.current_time ∧
    (pollStep env sim).1.rot_angle = sim.rot_angle ∧
    (pollStep env sim).1.t_end = sim.t_end :=
  pollStep_preserves_render_fields env sim

/-- C5 counterexample: in a successful poll cycle the modification marker is
advanced before, not after, the enqueue onto the fan-in channel: the ordered
event trace of a concrete successful cycle starts with the marker write
(position 0) and the enqueue comes later (position 2). -/
theorem C5_marker_before_enqueue_cex :
    (pollStep envGood simInit).2.map Event.tag =
      [ETag.marker, ETag.inc, ETag.enq, ETag.status, ETag.startT] ∧
    List.indexOf ETag.marker [ETag.marker, ETag.inc, ETag.enq, ETag.status, ETag.startT] <
      List.indexOf ETag.enq [ETag.marker, ETag.inc, ETag.enq, ETag.status, ETag.startT] := by
  exact ⟨rfl, by decide⟩

/-- C5 amended: when the decode fails the marker is left unchanged, so the
same artifact content is retried on a later poll; the marker changes exactly
in the cycles that enqueue a snapshot; and within such a cycle the marker
write comes immediately before (not after) the enqueue, the first three
events being marker write, counter increment, enqueue. -/
theorem C5_marker_advance_amended (env : PollEnv) (sim : SimState) :
    (load_snapshot_file env = none → (pollStep env sim).1.last_mtime = sim.last_mtime) ∧
    ((pollStep env sim).1.last_mtime ≠ sim.last_mtime ↔
      emissions (pollStep env sim).2 ≠ []) ∧
    (∀ m : ℚ, Event.setLastMtime m ∈ (pollStep env sim).2 →
      ((pollStep env sim).2.map Event.tag).take 3 = [ETag.marker, ETag.inc, ETag.enq]) := by
  have hstep : (pollStep env sim).1 = (pollStatus env (pollData env sim).1).1 := rfl
  have hev : (pollStep env sim).2 =
      (pollData env sim).2 ++ (pollStatus env (pollData env sim).1).2 := rfl
  rcases pollData_cases env sim with hd | ⟨data, hl, hc, hm, hs, hp, hd⟩
  · have hm0 : (pollStep env sim).1.last_mtime = sim.last_mtime := by
      rw [hstep, hd]
      exact (pollStatus_fields env sim).2.2.2.2.2.2.2
    refine ⟨fun _ => hm0, ?_, ?_⟩
    · rw [emissions_pollStep, hd]
      constructor
      · intro hne
        exact absurd hm0 hne
      · intro hne
        exact absurd rfl hne
    · intro m hmem
      exfalso
      rw [hev, hd] at hmem
      unfold pollStatus at hmem
      rcases hsf : env.statusFile with _ | s <;> rw [hsf] at hmem <;> simp at hmem
  · have hmm : (pollStep env sim).1.last_mtime = env.mtime := by
      rw [hstep, hd]
      exact (pollStatus_fields env (succState sim env)).2.2.2.2.2.2.2
    refine ⟨?_, ?_, ?_⟩
    · intro h0
      rw [h0] at hl
      exact Option.noConfusion hl
    · rw [emissions_pollStep, hd]
      show _ ↔ emissions (succEvents sim env data) ≠ []
      rw [emissions_succEvents, hmm]
      constructor
      · intro _
        simp
      · intro _
        exact fun h => absurd h (ne_of_gt hm)
    · intro m hmem
      rw [hev, hd]
      show ((succEvents sim env data ++
        (pollStatus env (succState sim env)).2).map Event.tag).take 3 = _
      unfold succEvents
      cases sim.start_time <;> rfl

/-- C5 amended witness: on a cycle whose decoder-level stability check fails
the marker is unchanged, and on a successful cycle the first three events are
marker write, counter increment, enqueue. -/
theorem C5_marker_advance_amended_witness :
    (load_snapshot_file envBadLoad = none ∧
     (pollStep envBadLoad simInit).1.last_mtime = simInit.last_mtime) ∧
    ((pollStep envGood simInit).2.map Event.tag).take 3 =
      [ETag.marker, ETag.inc, ETag.enq] := by
  refine ⟨⟨by decide, (C5_marker_advance_amended envBadLoad simInit).1 (by decide)⟩, ?_⟩
  have hmem : Event.setLastMtime (5 : ℚ) ∈ (pollStep envGood simInit).2 := by
    have h : (pollStep envGood simInit).2 =
        Event.setLastMtime (5 : ℚ) :: (pollStep envGood simInit).2.tail := rfl
    rw [h]
    exact List.mem_cons_self _ _
  exact (C5_marker_advance_amended envGood simInit).2.2 5 hmem

/-- C10: an enqueue performed while the instance holds no previous snapshot
(the very first emission for the instance) always carries a velocity vector
of length n_particles with every entry zero. -/
theorem C10_first_emission_zero_velocities (env : PollEnv) (sim : SimState)
    (hfirst : sim.particles = none) :
    ∀ (d : Snapshot) (v : List ℝ) (i : Int) (t : ℚ),
      Event.enqueue d v i t ∈ (pollStep env sim).2 →
      v.length = d.n_particles ∧ ∀ x ∈ v, x = (0 : ℝ) := by
  intro d v i t hmem
  have hev : (pollStep env sim).2 =
      (pollData env sim).2 ++ (pollStatus env (pollData env sim).1).2 := rfl
  rcases pollData_cases env sim with hd | ⟨data, hl, hc, hm, hs, hp, hd⟩
  · exfalso
    rw [hev, hd] at hmem
    unfold pollStatus at hmem
    rcases hsf : env.statusFile with _ | s <;> rw [hsf] at hmem <;> simp at hmem
  · rw [hev, hd] at hmem
    dsimp only at hmem
    have key : d = data ∧ v = computeVelocities sim.particles data := by
      rcases List.mem_append.mp hmem with hmem1 | hmem2
      · unfold succEvents at hmem1
        rcases List.mem_append.mp hmem1 with hmem3 | hmem4
        · simp only [List.mem_cons, List.not_mem_nil, or_false] at hmem3
          rcases hmem3 with h | h | h | h
          · exact Event.noConfusion h
          · exact Event.noConfusion h
          · injection h with h1 h2 h3 h4
            exact ⟨h1, h2⟩
          · exact Event.noConfusion h
        · rcases hst : sim.start_time with _ | t0 <;> rw [hst] at hmem4 <;>
            simp only [List.mem_singleton, List.not_mem_nil] at hmem4
          exact Event.noConfusion hmem4
      · unfold pollStatus at hmem2
        rcases hsf : env.statusFile with _ | s <;> rw [hsf] at hmem2 <;>
          simp only [List.mem_singleton, List.not_mem_nil] at hmem2
        exact Event.noConfusion hmem2
    obtain ⟨hd', hv⟩ := key
    rw [hv, hfirst, hd']
    show (List.replicate data.n_particles (0 : ℝ)).length = data.n_particles ∧
      ∀ x ∈ List.replicate data.n_particles (0 : ℝ), x = (0 : ℝ)
    constructor
    · rw [List.length_replicate]
    · intro x hx
      exact List.eq_of_mem_replicate hx

/-- C10 witness: the first emission of a concrete instance (previous snapshot
absent) carries the all-zero velocity vector of length 1 = n_particles. -/
theorem C10_first_emission_zero_velocities_witness :
    simInit.particles = none ∧
    (List.replicate (1 : Nat) (0 : ℝ)).length = goodSnap.n_particles ∧
    ∀ x ∈ List.replicate (1 : Nat) (0 : ℝ), x = (0 : ℝ) := by
  have hmem : Event.enqueue goodSnap (List.replicate (1 : Nat) (0 : ℝ)) 0 7 ∈
      (pollStep envGood simInit).2 := by
    have h : (pollStep envGood simInit).2 =
        [Event.setLastMtime 5, Event.incSnapshot 0,
         Event.enqueue goodSnap (List.replicate (1 : Nat) (0 : ℝ)) 0 7,
         Event.setStatus "running", Event.setStartTime 9] := rfl
    rw [h]
    exact List.mem_cons_of_mem _ (List.mem_cons_of_mem _ (List.mem_cons_self _ _))
  have h := C10_first_emission_zero_velocities envGood simInit rfl goodSnap
    (List.replicate (1 : Nat) (0 : ℝ)) 0 7 hmem
  exact ⟨rfl, h.1, h.2⟩

lemma dequeAppend_length_le (K : Nat) (h : List Snapshot) (s : Snapshot) :
    (dequeAppend K h s).length ≤ K ∨ (dequeAppend K h s).length = h.length + 1 := by
  unfold dequeAppend
  split_ifs with hK
  · left
    rw [List.length_drop, List.length_append]
    simp
    omega
  · right
    rw [List.length_append]
    rfl

/-- C6: the trail history never holds more than trail_length = 10 snapshots,
no matter how many queue items are folded into the state; and pushing onto a
full trail evicts exactly the oldest entry. -/
theorem C6_trail_capacity (sim : SimState) (items : List QItem) (s : Snapshot)
    (hinit : sim.snapshots.length ≤ trail_length) :
    (items.foldl consumeItem sim).snapshots.length ≤ trail_length ∧
    (sim.snapshots.length = trail_length →
      dequeAppend trail_length sim.snapshots s = sim.snapshots.drop 1 ++ [s]) := by
  constructor
  · induction items generalizing sim with
    | nil => exact hinit
    | cons it rest ih =>
      rw [List.foldl_cons]
      apply ih
      show (dequeAppend trail_length sim.snapshots it.data).length ≤ trail_length
      rcases dequeAppend_length_le trail_length sim.snapshots it.data with h | h
      · exact h
      · rcases Nat.lt_or_ge sim.snapshots.length trail_length with hlt | hge
        · omega
        · exfalso
          have : trail_length < sim.snapshots.length + 1 := by omega
          unfold dequeAppend at h
          rw [if_pos this, List.length_drop, List.length_append] at h
          simp at h
          omega
  · intro hfull
    have h10 : trail_length = 10 := rfl
    unfold dequeAppend
    rw [if_pos (by omega)]
    have h1 : sim.snapshots.length + 1 - trail_length = 1 := by omega
    rw [h1]
    exact List.drop_append_of_le_length (by omega)

/-- C6 witness: folding a queue item into a state whose trail is full keeps
the length within capacity, and the push evicts exactly the oldest entry. -/
theorem C6_trail_capacity_witness :
    ([itemA].foldl consumeItem simFull).snapshots.length ≤ trail_length ∧
    dequeAppend trail_length simFull.snapshots goodSnap =
      simFull.snapshots.drop 1 ++ [goodSnap] := by
  have h := C6_trail_capacity simFull [itemA] goodSnap (by decide)
  exact ⟨h.1, h.2 (by decide)⟩

/-- C7: whenever the render tick produces a scene for an instance, the
displayed progress fraction equals current_time / t_end clamped to the unit
interval via min(max(ratio, 0), 1); t_end is read at startup as the second
whitespace token of the optional cfg artifact, defaulting to 100 when the
artifact is absent, unreadable, too short or non-numeric; and neither the
watcher poll nor the consume step ever changes t_end afterwards. -/
theorem C7_progress_fraction (speed : ℚ) (P : Nat) (refTimes : List ℚ) (sim : SimState) :
    (∀ sc, (renderInstance speed P refTimes sim).2 = some sc →
      sc.progress = min (max (sim.current_time / sim.t_end) 0) 1 ∧
      0 ≤ sc.progress ∧ sc.progress ≤ 1) ∧
    readTEnd none = 100 ∧
    (∀ toks : List Tok, toks.length < 2 → readTEnd (some toks) = 100) ∧
    (∀ toks : List Tok, (toks.get? 1).bind Tok.floatOf = none →
      readTEnd (some toks) = 100) ∧
    (∀ (toks : List Tok) (v : ℚ), (toks.get? 1).bind Tok.floatOf = some v →
      readTEnd (some toks) = v) ∧
    (∀ (env : PollEnv) (it : QItem),
      (pollStep env sim).1.t_end = sim.t_end ∧ (consumeItem sim it).t_end = sim.t_end) := by
  refine ⟨?_, rfl, ?_, ?_, ?_, ?_⟩
  · intro sc hsc
    unfold renderInstance at hsc
    rcases hpart : sim.particles with _ | snap <;> rw [hpart] at hsc
    · exact Option.noConfusion hsc
    · obtain rfl := (Option.some.inj hsc).symm
      refine ⟨rfl, ?_, ?_⟩
      · show 0 ≤ min (max (sim.current_time / sim.t_end) 0) 1
        exact le_min (le_max_right _ _) zero_le_one
      · show min (max (sim.current_time / sim.t_end) 0) 1 ≤ 1
        exact min_le_right _ _
  · intro toks hlen
    show (if 2 ≤ toks.length then
        (match (toks.get? 1).bind Tok.floatOf with | some v => v | none => 100)
      else (100 : ℚ)) = 100
    rw [if_neg (by omega)]
  · intro toks hnone
    show (if 2 ≤ toks.length then
        (match (toks.get? 1).bind Tok.floatOf with | some v => v | none => 100)
      else (100 : ℚ)) = 100
    split_ifs with h2
    · rw [hnone]
    · rfl
  · intro toks v hv
    have hlen : 2 ≤ toks.length := by
      rcases hg : toks.get? 1 with _ | tk
      · rw [hg] at hv
        exact Option.noConfusion hv
      · obtain ⟨hlt, -⟩ := List.get?_eq_some.mp hg
        omega
    show (if 2 ≤ toks.length then
        (match (toks.get? 1).bind Tok.floatOf with | some w => w | none => 100)
      else (100 : ℚ)) = v
    rw [if_pos hlen, hv]
  · intro env it
    exact ⟨(pollStep_preserves_render_fields env sim).2.2.2.2.2.2, rfl⟩

/-- C7 witness: an instance holding a snapshot at time 50 with t_end 100
displays progress 1/2, equal to the clamped ratio and inside the unit
interval. -/
theorem C7_progress_fraction_witness :
    (renderInstance 1 2 [] simC7).2 = some sceneC7 ∧
    sceneC7.progress = min (max (simC7.current_time / simC7.t_end) 0) 1 ∧
    0 ≤ sceneC7.progress ∧ sceneC7.progress ≤ 1 ∧
    sceneC7.progress = 1 / 2 := by
  have h := (C7_progress_fraction 1 2 [] simC7).1 sceneC7 rfl
  refine ⟨rfl, h.1, h.2.1, h.2.2, ?_⟩
  rw [h.1]
  show min (max ((50 : ℚ) / 100) 0) 1 = 1 / 2
  rw [show ((50 : ℚ) / 100) = 1 / 2 by norm_num,
    max_eq_left (by norm_num), min_eq_left (by norm_num)]

/-- C8 counterexample: with reference decode durations [4] and own durations
[1, 3], the code displays speedup 4 / mean [1, 3] = 2, not the most recent
reference duration divided by the most recent own duration 4 / 3. -/
theorem C8_speedup_cex :
    speedupOf 2 [4] [1, 3] = 2 ∧
    List.getLastD [(4 : ℚ)] 0 / List.getLastD [(1 : ℚ), 3] 0 = 4 / 3 ∧
    speedupOf 2 [4] [1, 3] ≠ List.getLastD [(4 : ℚ)] 0 / List.getLastD [(1 : ℚ), 3] 0 := by
  have hs : speedupOf 2 [4] [1, 3] = 2 := by
    unfold speedupOf
    rw [if_pos (by simp), if_pos ⟨by norm_num, by simp⟩]
    unfold mean lastN
    simp [List.getLastD]
    norm_num
  refine ⟨hs, by simp [List.getLastD], ?_⟩
  rw [hs]
  simp [List.getLastD]
  norm_num

/-- C8 amended: for an instance with at least one decode-duration sample the
displayed speedup equals the reference instance's most recent decode duration
divided by the mean of this instance's last (up to) 10 decode durations, when
the instance is not the reference (P greater than 1) and the reference has a
sample; it defaults to the own processor count P when the reference has no
sample, to 1 for the reference instance itself, and to 1 when the instance
has no samples. -/
theorem C8_speedup_amended (P : Nat) (refTimes times : List ℚ) :
    (times ≠ [] → 1 < P → refTimes ≠ [] →
      speedupOf P refTimes times = refTimes.getLastD 0 / mean (lastN 10 times)) ∧
    (times ≠ [] → refTimes = [] → speedupOf P refTimes times = (P : ℚ)) ∧
    (times ≠ [] → speedupOf 1 refTimes times = 1) ∧
    (times = [] → speedupOf P refTimes times = 1) := by
  refine ⟨?_, ?_, ?_, ?_⟩
  · intro ht hP href
    unfold speedupOf
    rw [if_pos ht, if_pos ⟨hP, href⟩]
  · intro ht href
    unfold speedupOf
    rw [if_pos ht, if_neg (by simp [href])]
  · intro ht
    unfold speedupOf
    rw [if_pos ht, if_neg (by simp)]
    norm_num
  · intro ht
    unfold speedupOf
    rw [if_neg (by simp [ht])]

/-- C8 amended witness: at P = 2 with reference sample [4] and own samples
[1, 3] the displayed speedup equals 4 divided by the mean 2; with no
reference samples it defaults to 2; the reference instance itself and an
instance without samples display 1. -/
theorem C8_speedup_amended_witness :
    speedupOf 2 [4] [1, 3] = List.getLastD [(4 : ℚ)] 0 / mean (lastN 10 [1, 3]) ∧
    speedupOf 2 [] [1, 3] = (2 : ℚ) ∧
    speedupOf 1 [4] [1, 3] = 1 ∧
    speedupOf 2 [4] [] = 1 :=
  ⟨(C8_speedup_amended 2 [4] [1, 3]).1 (by decide) (by decide) (by decide),
   (C8_speedup_amended 2 [] [1, 3]).2.1 (by decide) rfl,
   (C8_speedup_amended 1 [4] [1, 3]).2.2.1 (by decide),
   (C8_speedup_amended 2 [4] []).2.2.2 rfl⟩

end NBodyViz
